import Mathlib

/-!
Verification development for the Setu-AI bridge-health monitoring repository.

The embedding covers the sensor-to-health pipeline:
  * the ingest server (`app.post("/data")`, `computePredictions`, the alert
    cooldown state and the `/latest` endpoint) of the Express backend;
  * the per-channel rolling history (`updateHistory`, `MAX_POINTS`) of the
    React dashboard;
  * the WebSocket broadcast / late-join delivery and the serial-data handler
    of the second backend variant.

JavaScript numeric semantics are modelled over exact rationals extended with
a `NaN` element: arithmetic on an absent (`undefined`) field yields `NaN`,
`NaN` propagates through arithmetic, every `<` comparison involving `NaN` is
false, and `Math.min` returns `NaN` when either argument is `NaN`.
`Math.sqrt` is not rational-valued in general, so magnitude values are passed
explicitly and constrained by the decidable specification `IsSqrt`.
-/

namespace SetuAI

/-- Value of a JavaScript floating-point expression: a real numeric value
(modelled exactly as a rational) or `NaN`. -/
inductive JSNum where
  | nan : JSNum
  | num : ℚ → JSNum
  deriving DecidableEq, Repr

open JSNum

/-- JS addition; `NaN` propagates. -/
def jadd : JSNum → JSNum → JSNum
  | num a, num b => num (a + b)
  | _, _ => nan

/-- JS multiplication; `NaN` propagates. -/
def jmul : JSNum → JSNum → JSNum
  | num a, num b => num (a * b)
  | _, _ => nan

/-- JS subtraction; `NaN` propagates. -/
def jsub : JSNum → JSNum → JSNum
  | num a, num b => num (a - b)
  | _, _ => nan

/-- JS division; `NaN` propagates.  The source divides only by the nonzero
constant `5.0`, for which rational division agrees with JS division. -/
def jdiv : JSNum → JSNum → JSNum
  | num a, num b => num (a / b)
  | _, _ => nan

/-- JS `<` comparison: any comparison involving `NaN` is false. -/
def jlt : JSNum → JSNum → Bool
  | num a, num b => decide (a < b)
  | _, _ => false

/-- JS `Math.min`: returns `NaN` when either argument is `NaN`. -/
def jmin : JSNum → JSNum → JSNum
  | num a, num b => num (min a b)
  | _, _ => nan

/-- Model of `parseFloat(x.toFixed(3))`: round to three decimal places.
`NaN.toFixed(3)` is the string `"NaN"` and `parseFloat` maps it back to
`NaN`.  All values rounded by the source are nonnegative, where JS round
half away from zero agrees with `round` (round half up). -/
def jround3 : JSNum → JSNum
  | nan => nan
  | num q => num (((round (q * 1000) : ℤ) : ℚ) / 1000)

/-- Specification of `Math.sqrt` on a JS value: `NaN` maps to `NaN`, a
negative number maps to `NaN`, and a nonnegative number maps to its
nonnegative square root.  Stated relationally (and decidably) because the
square root of a rational is not rational in general. -/
def IsSqrt : JSNum → JSNum → Prop
  | nan, nan => True
  | num q, nan => q < 0
  | nan, num _ => False
  | num q, num s => 0 ≤ s ∧ s * s = q

instance (x m : JSNum) : Decidable (IsSqrt x m) :=
  match x, m with
  | nan, nan => isTrue trivial
  | num q, nan => inferInstanceAs (Decidable (q < 0))
  | nan, num _ => isFalse (fun h => h)
  | num q, num s => inferInstanceAs (Decidable (0 ≤ s ∧ s * s = q))

/-- Membership of a JS value in the unit interval; `NaN` is outside. -/
def inUnit : JSNum → Prop
  | nan => False
  | num q => 0 ≤ q ∧ q ≤ 1

instance (x : JSNum) : Decidable (inUnit x) :=
  match x with
  | nan => isFalse (fun h => h)
  | num q => inferInstanceAs (Decidable (0 ≤ q ∧ q ≤ 1))

/-- Incoming sensor reading as posted to the ingest endpoint.  JSON carries
either a number or nothing for each field, so fields are `Option ℚ`
(`none` = the field is absent, i.e. `undefined` after destructuring). -/
structure Reading where
  device_id : Option String := none
  ax : Option ℚ := none
  ay : Option ℚ := none
  az : Option ℚ := none
  gx : Option ℚ := none
  gy : Option ℚ := none
  gz : Option ℚ := none
  temperature_c : Option ℚ := none
  humidity_percent : Option ℚ := none
  timestamp : Option ℤ := none
  deriving DecidableEq, Repr

/-- Numeric value of a possibly-absent field once it enters arithmetic:
`undefined` coerces to `NaN`. -/
def jval : Option ℚ → JSNum
  | none => nan
  | some q => num q

/-- JS truthiness of a possibly-absent numeric field: `undefined` and `0`
are falsy, every other number is truthy. -/
def truthy : Option ℚ → Bool
  | none => false
  | some q => decide (q ≠ 0)

/-- The expression `ax * ax + ay * ay + az * az` inside `computePredictions`. -/
def accelSumSq (r : Reading) : JSNum :=
  jadd (jadd (jmul (jval r.ax) (jval r.ax)) (jmul (jval r.ay) (jval r.ay)))
    (jmul (jval r.az) (jval r.az))

/-- The expression `gx * gx + gy * gy + gz * gz` inside `computePredictions`. -/
def gyroSumSq (r : Reading) : JSNum :=
  jadd (jadd (jmul (jval r.gx) (jval r.gx)) (jmul (jval r.gy) (jval r.gy)))
    (jmul (jval r.gz) (jval r.gz))

/-- Derived health assessment returned by `computePredictions`.  The source
represents the condition tier as one of the strings `"normal"`, `"minor"`,
`"moderate"`, `"severe"`. -/
structure Prediction where
  degradation_score : JSNum
  condition : String
  forecast_30d : JSNum
  confidence : JSNum
  deriving DecidableEq, Repr

/-- The threshold chain of `computePredictions`:
`if (degradation < 0.15) ... else if (degradation < 0.3) ... else if
(degradation < 0.6) ... else "severe"`. -/
def conditionOf (degradation : JSNum) : String :=
  if jlt degradation (num 0.15) then ("normal")
  else if jlt degradation (num 0.3) then ("minor")
  else if jlt degradation (num 0.6) then ("moderate")
  else ("severe")

/-- `computePredictions` from the backend (the dashboard carries a textually
identical copy).  `accel_mag` and `gyro_mag` are the values of
`Math.sqrt(ax*ax + ay*ay + az*az)` and `Math.sqrt(gx*gx + gy*gy + gz*gz)`,
constrained by `IsSqrt` against `accelSumSq` / `gyroSumSq` in the theorems.
`r1` and `r2` are the two `Math.random()` draws, each in `[0, 1)`. -/
def computePredictions (accel_mag gyro_mag : JSNum) (r1 r2 : ℚ) : Prediction :=
  let rawDegradation : JSNum :=
    jdiv (jadd (jmul accel_mag (num 0.8)) (jmul gyro_mag (num 0.2))) (num 5)
  let degradation : JSNum := jmin (num 1) rawDegradation
  { degradation_score := jround3 degradation
    condition := conditionOf degradation
    forecast_30d :=
      jround3 (jmin (num 1) (jadd (jadd degradation (num 0.01)) (num (r1 * 0.09))))
    confidence := jround3 (jsub (num 1) (num (r2 * 0.08))) }

/-- Mutable state of the ingest server: `latestData` (initially `null`) and
`lastAlertTime` (initially `0`). -/
structure ServerState where
  latestData : Option (Reading × Prediction)
  lastAlertTime : ℤ
  deriving DecidableEq, Repr

/-- State at server start: `latestData = null`, `lastAlertTime = 0`. -/
def initialServerState : ServerState :=
  { latestData := none, lastAlertTime := 0 }

/-- Cooldown between alert emails: `ALERT_COOLDOWN_MS = 60000`. -/
def ALERT_COOLDOWN_MS : ℤ := 60000

/-- Response of the `/data` route: the 400 rejection or the 200 payload
`{ status: "ok", prediction }`. -/
inductive IngestResult where
  | badRequest : ℕ → String → IngestResult
  | ok : Prediction → IngestResult
  deriving DecidableEq, Repr

/-- Observable outcome of one `/data` request: the post-state, the HTTP
response, how many alert emails were attempted (`sendMail` calls) and how
many delivery errors were logged. -/
structure StepOut where
  state : ServerState
  response : IngestResult
  emailsAttempted : ℕ
  emailErrors : ℕ
  deriving DecidableEq, Repr

/-- The validation test of the `/data` route, `!data.ax || !data.ay ||
!data.az`, negated: the request is accepted when all three accelerometer
fields are truthy. -/
def accepted (r : Reading) : Bool :=
  truthy r.ax && truthy r.ay && truthy r.az

/-- The `app.post("/data")` handler.  `now` is the value of `Date.now()` and
`deliveryOk` tells whether `transporter.sendMail` succeeds (its failure is
caught and logged).  Mirrors the source: validate `ax`/`ay`/`az` truthiness,
classify, overwrite `latestData`, and when the condition is `"severe"` and
the cooldown has strictly elapsed, commit `lastAlertTime = now` and then
attempt the email. -/
def postData (st : ServerState) (r : Reading) (accel_mag gyro_mag : JSNum)
    (r1 r2 : ℚ) (now : ℤ) (deliveryOk : Bool) : StepOut :=
  if !truthy r.ax || !truthy r.ay || !truthy r.az then
    { state := st, response := .badRequest 400 ("Incomplete MPU data"),
      emailsAttempted := 0, emailErrors := 0 }
  else
    let prediction := computePredictions accel_mag gyro_mag r1 r2
    let st1 : ServerState := { st with latestData := some (r, prediction) }
    if prediction.condition = ("severe") then
      if now - st.lastAlertTime > ALERT_COOLDOWN_MS then
        { state := { st1 with lastAlertTime := now }, response := .ok prediction,
          emailsAttempted := 1, emailErrors := if deliveryOk then 0 else 1 }
      else
        { state := st1, response := .ok prediction,
          emailsAttempted := 0, emailErrors := 0 }
    else
      { state := st1, response := .ok prediction,
        emailsAttempted := 0, emailErrors := 0 }

/-- Response of the `/latest` route: the sentinel `{ message: "No data yet" }`
before the first successful ingest, else the stored latest value. -/
inductive LatestResponse where
  | noData : String → LatestResponse
  | latestValue : Reading × Prediction → LatestResponse
  deriving DecidableEq, Repr

/-- The `app.get("/latest")` handler. -/
def getLatest (st : ServerState) : LatestResponse :=
  match st.latestData with
  | none => .noData ("No data yet")
  | some d => .latestValue d

/-- One `/data` request together with its environment: the posted reading,
the square-root values the JS engine computes for the two magnitudes, the
two `Math.random()` draws, the value of `Date.now()`, and whether the email
delivery would succeed. -/
structure Event where
  reading : Reading
  accel_mag : JSNum
  gyro_mag : JSNum
  r1 : ℚ
  r2 : ℚ
  now : ℤ
  deliveryOk : Bool
  deriving DecidableEq, Repr

/-- Observable outcome of one event against a server state. -/
def stepServer (st : ServerState) (e : Event) : StepOut :=
  postData st e.reading e.accel_mag e.gyro_mag e.r1 e.r2 e.now e.deliveryOk

/-- Server state after processing a sequence of `/data` requests in arrival
order (the Express event loop serialises them). -/
def runServer (st : ServerState) : List Event → ServerState
  | [] => st
  | e :: es => runServer (stepServer st e).state es

/-- Total number of alert emails attempted over a request sequence. -/
def totalSent (st : ServerState) : List Event → ℕ
  | [] => 0
  | e :: es => (stepServer st e).emailsAttempted + totalSent (stepServer st e).state es

/-- Timestamps (`Date.now()` values) of the requests on which an alert
email fired, in arrival order. -/
def alertTimes (st : ServerState) : List Event → List ℤ
  | [] => []
  | e :: es =>
    if (stepServer st e).emailsAttempted = 1 then
      e.now :: alertTimes (stepServer st e).state es
    else
      alertTimes (stepServer st e).state es

/-- A reading whose accelerometer magnitude is exactly 7 (`2² + 3² + 6² =
49`) and whose gyroscope magnitude is 0, so its degradation score is
`min(1, 5.6/5) = 1` and its condition is `"severe"`. -/
def severeReading : Reading :=
  { ax := some 2, ay := some 3, az := some 6, gx := some 0, gy := some 0, gz := some 0 }

/-- A `/data` request carrying `severeReading` at time `t`. -/
def severeEvent (t : ℤ) : Event :=
  { reading := severeReading, accel_mag := num 7, gyro_mag := num 0,
    r1 := 0, r2 := 0, now := t, deliveryOk := true }

/-- Ten consecutive severe readings arriving within one second. -/
def burstEvents : List Event :=
  [severeEvent 100000, severeEvent 100100, severeEvent 100200, severeEvent 100300,
    severeEvent 100400, severeEvent 100500, severeEvent 100600, severeEvent 100700,
    severeEvent 100800, severeEvent 100900]

/-- The burst followed by one more severe reading arriving after the 60000 ms
cooldown has elapsed since the alert fired at time 100000. -/
def coolDownTrace : List Event :=
  burstEvents ++ [severeEvent 160001]

/-- Reading posted without any gyroscope fields: `ax`/`ay`/`az` are truthy,
so the `/data` validator accepts it even though `gz` is missing. -/
def rMissingGz : Reading :=
  { ax := some 2, ay := some 3, az := some 6 }

/-- Reading with truthy accelerometer fields and `gx`, `gy` present but `gz`
missing. -/
def rPartialGyro : Reading :=
  { ax := some 2, ay := some 3, az := some 6, gx := some 1, gy := some 1 }

/-- A perfectly still sensor: all six axes present and equal to `0`. -/
def stillReading : Reading :=
  { ax := some 0, ay := some 0, az := some 0, gx := some 0, gy := some 0, gz := some 0 }

/-- A reading with a zero `ay` axis but all other axes nonzero. -/
def rZeroAy : Reading :=
  { ax := some 1, ay := some 0, az := some 1, gx := some 1, gy := some 1, gz := some 1 }

/-- State of the WebSocket broadcast layer of the second backend variant:
the latest sensor message plus, per connected client, the messages delivered
to it so far (in delivery order). -/
structure BroadcastState (α : Type) where
  latest : α
  clients : List (List α)

/-- The `broadcastToClients` helper: `wss.clients.forEach(client =>
client.send(JSON.stringify(data)))`. -/
def broadcastToClients {α : Type} (st : BroadcastState α) (m : α) : BroadcastState α :=
  { st with clients := st.clients.map (fun c => c ++ [m]) }

/-- One publish: the server stores the message as the latest value and then
broadcasts it to every connected client. -/
def publish {α : Type} (st : BroadcastState α) (m : α) : BroadcastState α :=
  broadcastToClients { st with latest := m } m

/-- What a newly connecting WebSocket client is sent immediately
(`wss.on('connection', ws => ws.send(JSON.stringify(latestSensorData)))`):
exactly the single latest value. -/
def connectDeliver {α : Type} (st : BroadcastState α) : List α :=
  [st.latest]

/-- Registering a new client: it is added with exactly the immediate
delivery of the latest value. -/
def connectClient {α : Type} (st : BroadcastState α) : BroadcastState α :=
  { st with clients := st.clients ++ [connectDeliver st] }

/-- Incoming serial-line JSON message of the second backend variant, reduced
to the fields its handler inspects: truthiness of `jsonData.sensors`, the
`timestamp` field, and the `status` field used by the alert check. -/
structure SerialMsg where
  hasSensors : Bool
  timestamp : Option ℤ
  status : String
  deriving DecidableEq, Repr

/-- JS truthiness of a possibly-absent integer timestamp field. -/
def tsTruthy : Option ℤ → Bool
  | none => false
  | some t => decide (t ≠ 0)

/-- The `parser.on('data')` handler of the second backend variant: a message
is accepted only when `jsonData.sensors && jsonData.timestamp` is truthy, in
which case the stored latest message becomes the incoming one with its
timestamp replaced by the server clock (`timestamp: Date.now()`); otherwise
the stored message is unchanged. -/
def handleSerialData (latest : SerialMsg) (j : SerialMsg) (now : ℤ) : SerialMsg :=
  if j.hasSensors && tsTruthy j.timestamp then
    { j with timestamp := some now }
  else
    latest

/-- History window size of the dashboard (`MAX_POINTS = 50`). -/
def MAX_POINTS : ℕ := 50

/-- One per-channel step of `updateHistory`:
`prev => [...prev, value].slice(-MAX_POINTS)`.  JS `slice(-n)` keeps the
last `n` elements (or the whole array when it is shorter). -/
def appendHistory (prev : List ℚ) (v : ℚ) : List ℚ :=
  ((prev ++ [v]).drop ((prev ++ [v]).length - MAX_POINTS))

/-- Sixty sample values `0, 1, ..., 59` in arrival order. -/
def sixtyValues : List ℚ :=
  (List.range 60).map (fun n : ℕ => (n : ℚ))

/-! ### Helper lemmas about the ingest step -/

/-- The validator test of the `/data` route is the negation of `accepted`. -/
theorem validation_eq (r : Reading) :
    (!truthy r.ax || !truthy r.ay || !truthy r.az) = !(accepted r) := by
  simp [accepted, Bool.not_and]

/-- A request that fails validation changes nothing and returns the 400
error. -/
theorem postData_rejected (st : ServerState) (r : Reading) (am gm : JSNum)
    (r1 r2 : ℚ) (now : ℤ) (ok : Bool) (h : accepted r = false) :
    postData st r am gm r1 r2 now ok =
      { state := st, response := .badRequest 400 ("Incomplete MPU data"),
        emailsAttempted := 0, emailErrors := 0 } := by
  have hv : (!truthy r.ax || !truthy r.ay || !truthy r.az) = true := by
    rw [validation_eq, h]; rfl
  simp only [postData, hv, if_true]

/-- An accepted request always overwrites `latestData` with the posted
reading paired with its freshly computed prediction. -/
theorem postData_accepted_latest (st : ServerState) (r : Reading) (am gm : JSNum)
    (r1 r2 : ℚ) (now : ℤ) (ok : Bool) (h : accepted r = true) :
    (postData st r am gm r1 r2 now ok).state.latestData
      = some (r, computePredictions am gm r1 r2) := by
  have hv : (!truthy r.ax || !truthy r.ay || !truthy r.az) = false := by
    rw [validation_eq, h]; rfl
  simp only [postData, hv, Bool.false_eq_true, if_false]
  split
  · split <;> rfl
  · rfl

/-- An accepted request always answers 200 with the prediction. -/
theorem postData_accepted_response (st : ServerState) (r : Reading) (am gm : JSNum)
    (r1 r2 : ℚ) (now : ℤ) (ok : Bool) (h : accepted r = true) :
    (postData st r am gm r1 r2 now ok).response
      = .ok (computePredictions am gm r1 r2) := by
  have hv : (!truthy r.ax || !truthy r.ay || !truthy r.az) = false := by
    rw [validation_eq, h]; rfl
  simp only [postData, hv, Bool.false_eq_true, if_false]
  split
  · split <;> rfl
  · rfl

/-- Case analysis of one `/data` request: either the alert fired (exactly one
email attempt, `lastAlertTime` committed to `now`, and the cooldown had
strictly elapsed), or no email was attempted and `lastAlertTime` is
unchanged. -/
theorem postData_alert_cases (st : ServerState) (r : Reading) (am gm : JSNum)
    (r1 r2 : ℚ) (now : ℤ) (ok : Bool) :
    ((postData st r am gm r1 r2 now ok).emailsAttempted = 1 ∧
      (postData st r am gm r1 r2 now ok).state.lastAlertTime = now ∧
      st.lastAlertTime + 60000 < now) ∨
    ((postData st r am gm r1 r2 now ok).emailsAttempted = 0 ∧
      (postData st r am gm r1 r2 now ok).state.lastAlertTime = st.lastAlertTime) := by
  simp only [postData]
  split_ifs <;>
    first
      | exact Or.inr ⟨rfl, rfl⟩
      | (refine Or.inl ⟨rfl, rfl, ?_⟩; unfold ALERT_COOLDOWN_MS at *; omega)

/-! ### The alert cooldown invariant -/

/-- Every fired alert time lies strictly more than one cooldown after the
incoming `lastAlertTime`, and consecutive fired alert times are strictly
more than one cooldown apart. -/
theorem alertTimes_gap (es : List Event) : ∀ st : ServerState,
    (∀ t ∈ alertTimes st es, st.lastAlertTime + 60000 < t) ∧
    List.Pairwise (fun a b => a + 60000 < b) (alertTimes st es) := by
  induction es with
  | nil => intro st; simp [alertTimes]
  | cons e es ih =>
    intro st
    obtain ⟨ihmem, ihpw⟩ := ih (stepServer st e).state
    rcases postData_alert_cases st e.reading e.accel_mag e.gyro_mag e.r1 e.r2 e.now
        e.deliveryOk with ⟨h1, h2, h3⟩ | ⟨h1, h2⟩
    · have hstep : (stepServer st e).emailsAttempted = 1 := h1
      rw [alertTimes, if_pos hstep]
      refine ⟨?_, ?_⟩
      · intro t ht
        rcases List.mem_cons.mp ht with rfl | ht
        · exact h3
        · have := ihmem t ht
          rw [show (stepServer st e).state.lastAlertTime = e.now from h2] at this
          omega
      · refine List.Pairwise.cons (fun t ht => ?_) ihpw
        have := ihmem t ht
        rw [show (stepServer st e).state.lastAlertTime = e.now from h2] at this
        omega
    · have hstep : ¬((stepServer st e).emailsAttempted = 1) := by
        rw [show (stepServer st e).emailsAttempted = 0 from h1]; omega
      rw [alertTimes, if_neg hstep]
      refine ⟨?_, ihpw⟩
      intro t ht
      have := ihmem t ht
      rw [show (stepServer st e).state.lastAlertTime = st.lastAlertTime from h2] at this
      omega

section ConcreteEvaluation

attribute [local semireducible] Rat.add Rat.mul Rat.inv Rat.sub Rat.ofScientific

/-- C1: over any request sequence, any two distinct fired alert times are
strictly more than the 60000 ms cooldown apart (hence at most one outbound
notification per cooldown window, regardless of reading frequency); on the
concrete burst of 10 severe readings within one second exactly one
notification fires (at time 100000), and a further severe reading at time
160001 — after the cooldown has elapsed — fires a second notification and
refreshes `lastAlertTime` to 160001.  All burst events carry genuinely
severe readings (magnitudes certified by `IsSqrt`) and arrive within one
second. -/
theorem alertPolicy_cooldown :
    (∀ (st : ServerState) (es : List Event) (t₁ t₂ : ℤ),
        t₁ ∈ alertTimes st es → t₂ ∈ alertTimes st es → t₁ ≠ t₂ →
        60000 < |t₂ - t₁|) ∧
    alertTimes initialServerState burstEvents = [100000] ∧
    totalSent initialServerState burstEvents = 1 ∧
    alertTimes initialServerState coolDownTrace = [100000, 160001] ∧
    totalSent initialServerState coolDownTrace = 2 ∧
    (runServer initialServerState coolDownTrace).lastAlertTime = 160001 ∧
    (∀ e ∈ coolDownTrace,
        IsSqrt (accelSumSq e.reading) e.accel_mag ∧
        IsSqrt (gyroSumSq e.reading) e.gyro_mag ∧
        (computePredictions e.accel_mag e.gyro_mag e.r1 e.r2).condition = ("severe")) ∧
    (∀ e ∈ burstEvents, 100000 ≤ e.now ∧ e.now < 101000) := by
  refine ⟨?_, by decide, by decide, by decide, by decide, by decide, by decide, by decide⟩
  intro st es t₁ t₂ h₁ h₂ hne
  have hpw' : List.Pairwise (fun a b : ℤ => 60000 < |b - a|) (alertTimes st es) := by
    refine ((alertTimes_gap es st).2).imp ?_
    intro a b hab
    rw [abs_of_pos (by omega : (0 : ℤ) < b - a)]
    omega
  have hsym : Symmetric (fun a b : ℤ => 60000 < |b - a|) := by
    intro a b hab
    rwa [abs_sub_comm]
  exact hpw'.forall hsym h₁ h₂ hne

/-- Witness for C1 at the concrete trace: the two fired alert times 100000
and 160001 are more than one cooldown apart. -/
theorem alertPolicy_cooldown_witness : 60000 < |(160001 : ℤ) - 100000| :=
  alertPolicy_cooldown.1 initialServerState coolDownTrace 100000 160001
    (by decide) (by decide) (by decide)

/-- C2 (the code contradicts the claim): the reading `{ax:2, ay:3, az:6}`
with `gz` missing is not rejected.  The `/data` validator only tests
`ax`/`ay`/`az`, so the reading passes validation, is classified (its gyro
sum of squares — hence its gyro magnitude — is `NaN`), answers 200 with
condition `"severe"`, overwrites `latestData`, and even attempts an alert
email, instead of the specified 400 `MalformedReading` rejection with no
assessment, no mutation and no alert evaluation. -/
theorem ingest_missingGz_codeBug :
    rMissingGz.gz = none ∧
    accepted rMissingGz = true ∧
    IsSqrt (accelSumSq rMissingGz) (num 7) ∧
    gyroSumSq rMissingGz = JSNum.nan ∧
    IsSqrt (gyroSumSq rMissingGz) JSNum.nan ∧
    (postData initialServerState rMissingGz (num 7) JSNum.nan 0 0 100000 true).response
      = .ok (computePredictions (num 7) JSNum.nan 0 0) ∧
    (computePredictions (num 7) JSNum.nan 0 0).condition = ("severe") ∧
    (postData initialServerState rMissingGz (num 7) JSNum.nan 0 0 100000 true).state.latestData
      = some (rMissingGz, computePredictions (num 7) JSNum.nan 0 0) ∧
    (postData initialServerState rMissingGz (num 7) JSNum.nan 0 0 100000 true).emailsAttempted
      = 1 := by
  decide

/-- C10: a reading with truthy `ax`/`ay`/`az` but missing `gz` is accepted
by the validator and classification still proceeds: the gyro sum of squares
is `NaN`, so (through `Math.sqrt`) the gyro magnitude is `NaN`, the
degradation value is `NaN`, every threshold `<` comparison is false, the
condition returned is `"severe"`, and the recorded `degradation_score` is
`NaN`; the `/data` route answers 200 with that assessment. -/
theorem missing_gyro_nan_severe :
    truthy rPartialGyro.ax = true ∧
    truthy rPartialGyro.ay = true ∧
    truthy rPartialGyro.az = true ∧
    rPartialGyro.gz = none ∧
    accepted rPartialGyro = true ∧
    IsSqrt (accelSumSq rPartialGyro) (num 7) ∧
    gyroSumSq rPartialGyro = JSNum.nan ∧
    IsSqrt (gyroSumSq rPartialGyro) JSNum.nan ∧
    jmin (num 1) (jdiv (jadd (jmul (num 7) (num 0.8)) (jmul JSNum.nan (num 0.2))) (num 5))
      = JSNum.nan ∧
    jlt JSNum.nan (num 0.15) = false ∧
    jlt JSNum.nan (num 0.3) = false ∧
    jlt JSNum.nan (num 0.6) = false ∧
    conditionOf JSNum.nan = ("severe") ∧
    (computePredictions (num 7) JSNum.nan 0 0).condition = ("severe") ∧
    (computePredictions (num 7) JSNum.nan 0 0).degradation_score = JSNum.nan ∧
    (postData initialServerState rPartialGyro (num 7) JSNum.nan 0 0 100000 true).response
      = .ok (computePredictions (num 7) JSNum.nan 0 0) := by
  decide

/-- C9: a reading in which `ax`, `ay` or `az` is `0` (or missing, both being
falsy in JS) is rejected with the 400 `"Incomplete MPU data"` error and
leaves the server state untouched; in particular a perfectly still sensor
reporting all six axes as `0` is never classified through ingest. -/
theorem falsy_axes_rejected :
    (∀ (st : ServerState) (r : Reading) (am gm : JSNum) (r1 r2 : ℚ) (now : ℤ)
        (ok : Bool),
        (truthy r.ax = false ∨ truthy r.ay = false ∨ truthy r.az = false) →
        postData st r am gm r1 r2 now ok =
          { state := st, response := .badRequest 400 ("Incomplete MPU data"),
            emailsAttempted := 0, emailErrors := 0 }) ∧
    truthy (some 0) = false ∧
    truthy none = false ∧
    (postData initialServerState stillReading (num 0) (num 0) 0 0 100000 true).response
      = .badRequest 400 ("Incomplete MPU data") ∧
    (postData initialServerState stillReading (num 0) (num 0) 0 0 100000 true).state
      = initialServerState := by
  refine ⟨?_, by decide, by decide, by decide, by decide⟩
  intro st r am gm r1 r2 now ok h
  apply postData_rejected
  simp only [accepted]
  rcases h with h | h | h <;> simp [h]

/-- Witness for C9: the reading with a zero `ay` axis is rejected by the
validator with the 400 error and no state change. -/
theorem falsy_axes_rejected_witness :
    postData initialServerState rZeroAy (num 2) (num 2) 0 0 5 true =
      { state := initialServerState,
        response := .badRequest 400 ("Incomplete MPU data"),
        emailsAttempted := 0, emailErrors := 0 } :=
  falsy_axes_rejected.1 initialServerState rZeroAy (num 2) (num 2) 0 0 5 true
    (Or.inr (Or.inl (by decide)))

end ConcreteEvaluation

/-! ### Classifier bounds and thresholds -/

/-- Rounding a number of the unit interval to three decimals stays in the
unit interval. -/
theorem jround3_inUnit {q : ℚ} (h0 : 0 ≤ q) (h1 : q ≤ 1) :
    inUnit (jround3 (num q)) := by
  have hm : ∀ x y : ℚ, x ≤ y → round x ≤ round y := by
    intro x y hxy
    rw [round_eq, round_eq]
    exact Int.floor_mono (by linarith)
  have hlo : (0 : ℤ) ≤ round (q * 1000) := by
    have h := hm 0 (q * 1000) (by nlinarith)
    rwa [round_zero] at h
  have hhi : round (q * 1000) ≤ 1000 := by
    have h := hm (q * 1000) 1000 (by nlinarith)
    have h1000 : round (1000 : ℚ) = 1000 := by
      exact_mod_cast round_natCast (α := ℚ) 1000
    rw [h1000] at h
    exact h
  refine ⟨?_, ?_⟩
  · positivity
  · rw [div_le_one (by norm_num)]
    exact_mod_cast hhi

/-- A degradation value below 0.15 classifies as `"normal"`. -/
theorem conditionOf_eq_normal {q : ℚ} (h : q < 0.15) :
    conditionOf (num q) = ("normal") := by
  simp [conditionOf, jlt, h]

/-- A degradation value in `[0.15, 0.3)` classifies as `"minor"`. -/
theorem conditionOf_eq_minor {q : ℚ} (h1 : 0.15 ≤ q) (h2 : q < 0.3) :
    conditionOf (num q) = ("minor") := by
  simp [conditionOf, jlt, h2, not_lt.mpr h1]

/-- A degradation value in `[0.3, 0.6)` classifies as `"moderate"`. -/
theorem conditionOf_eq_moderate {q : ℚ} (h1 : 0.3 ≤ q) (h2 : q < 0.6) :
    conditionOf (num q) = ("moderate") := by
  have h0 : ¬ q < 0.15 := not_lt.mpr (by linarith)
  simp [conditionOf, jlt, h2, h0, not_lt.mpr h1]

/-- A degradation value of at least 0.6 classifies as `"severe"`. -/
theorem conditionOf_eq_severe {q : ℚ} (h : 0.6 ≤ q) :
    conditionOf (num q) = ("severe") := by
  have h0 : ¬ q < 0.15 := not_lt.mpr (by linarith)
  have h1 : ¬ q < 0.3 := not_lt.mpr (by linarith)
  simp [conditionOf, jlt, h0, h1, not_lt.mpr h]

/-- Exhaustive tier case analysis for a numeric degradation value. -/
theorem conditionOf_cases (q : ℚ) :
    (q < 0.15 ∧ conditionOf (num q) = ("normal")) ∨
    (0.15 ≤ q ∧ q < 0.3 ∧ conditionOf (num q) = ("minor")) ∨
    (0.3 ≤ q ∧ q < 0.6 ∧ conditionOf (num q) = ("moderate")) ∨
    (0.6 ≤ q ∧ conditionOf (num q) = ("severe")) := by
  rcases lt_or_le q 0.15 with h | h1
  · exact Or.inl ⟨h, conditionOf_eq_normal h⟩
  rcases lt_or_le q 0.3 with h | h2
  · exact Or.inr (Or.inl ⟨h1, h, conditionOf_eq_minor h1 h⟩)
  rcases lt_or_le q 0.6 with h | h3
  · exact Or.inr (Or.inr (Or.inl ⟨h2, h, conditionOf_eq_moderate h2 h⟩))
  · exact Or.inr (Or.inr (Or.inr ⟨h3, conditionOf_eq_severe h3⟩))

/-- C3: for any nonnegative accelerometer and gyroscope magnitudes — thus
for every reading with finite axis values, however large, since `IsSqrt`
forces the magnitude of a finite sum of squares to be nonnegative — and any
`Math.random()` draws in `[0,1)`, `computePredictions` returns
`degradation_score`, `forecast_30d` and `confidence` all within `[0,1]`:
the degradation value is `min(1, (accel_mag*0.8 + gyro_mag*0.2)/5)`, clamped
at 1 and never negative, the forecast is clamped at 1, and the confidence is
1 minus a value in `[0, 0.08)`. -/
theorem classify_outputs_bounded :
    (∀ (x : JSNum) (a : ℚ), IsSqrt x (num a) → 0 ≤ a) ∧
    (∀ a g r1 r2 : ℚ, 0 ≤ a → 0 ≤ g → 0 ≤ r1 → r1 < 1 → 0 ≤ r2 → r2 < 1 →
        inUnit (computePredictions (num a) (num g) r1 r2).degradation_score ∧
        inUnit (computePredictions (num a) (num g) r1 r2).forecast_30d ∧
        inUnit (computePredictions (num a) (num g) r1 r2).confidence ∧
        0 ≤ min 1 ((a * 0.8 + g * 0.2) / 5) ∧
        (computePredictions (num a) (num g) r1 r2).degradation_score
          = jround3 (num (min 1 ((a * 0.8 + g * 0.2) / 5)))) := by
  constructor
  · intro x a h
    cases x with
    | nan => exact absurd h (fun hf => hf)
    | num q => exact h.1
  · intro a g r1 r2 ha hg hr1 hr1' hr2 hr2'
    have hpred : computePredictions (num a) (num g) r1 r2 =
        { degradation_score := jround3 (num (min 1 ((a * 0.8 + g * 0.2) / 5)))
          condition := conditionOf (num (min 1 ((a * 0.8 + g * 0.2) / 5)))
          forecast_30d :=
            jround3 (num (min 1 (min 1 ((a * 0.8 + g * 0.2) / 5) + 0.01 + r1 * 0.09)))
          confidence := jround3 (num (1 - r2 * 0.08)) } := by
      simp only [computePredictions, jmul, jadd, jdiv, jmin, jsub]
    have hraw : 0 ≤ (a * 0.8 + g * 0.2) / 5 := by positivity
    have hd0 : 0 ≤ min 1 ((a * 0.8 + g * 0.2) / 5) := le_min (by norm_num) hraw
    have hd1 : min 1 ((a * 0.8 + g * 0.2) / 5) ≤ 1 := min_le_left _ _
    have hf0 : 0 ≤ min 1 (min 1 ((a * 0.8 + g * 0.2) / 5) + 0.01 + r1 * 0.09) := by
      have : 0 ≤ r1 * 0.09 := by positivity
      exact le_min (by norm_num) (by linarith)
    have hf1 : min 1 (min 1 ((a * 0.8 + g * 0.2) / 5) + 0.01 + r1 * 0.09) ≤ 1 :=
      min_le_left _ _
    have hc0 : 0 ≤ 1 - r2 * 0.08 := by nlinarith
    have hc1 : 1 - r2 * 0.08 ≤ 1 := by
      have : 0 ≤ r2 * 0.08 := by positivity
      linarith
    rw [hpred]
    exact ⟨jround3_inUnit hd0 hd1, jround3_inUnit hf0 hf1, jround3_inUnit hc0 hc1,
      hd0, rfl⟩

/-- C4: the condition tiers are closed-open intervals over the degradation
value with fixed thresholds 0.15/0.30/0.60, boundary values belonging to the
upper tier: exactly 0.15 classifies as `"minor"`, not `"normal"`, while
0.149999 classifies as `"normal"`; likewise 0.3 is the lower edge of
`"moderate"` and 0.6 the lower edge of `"severe"`. -/
theorem condition_thresholds :
    (∀ q : ℚ, conditionOf (num q) = ("normal") ↔ q < 0.15) ∧
    (∀ q : ℚ, conditionOf (num q) = ("minor") ↔ 0.15 ≤ q ∧ q < 0.3) ∧
    (∀ q : ℚ, conditionOf (num q) = ("moderate") ↔ 0.3 ≤ q ∧ q < 0.6) ∧
    (∀ q : ℚ, conditionOf (num q) = ("severe") ↔ 0.6 ≤ q) ∧
    conditionOf (num 0.15) = ("minor") ∧
    conditionOf (num 0.149999) = ("normal") ∧
    conditionOf (num 0.3) = ("moderate") ∧
    conditionOf (num 0.6) = ("severe") := by
  refine ⟨?_, ?_, ?_, ?_,
    conditionOf_eq_minor (by norm_num) (by norm_num),
    conditionOf_eq_normal (by norm_num),
    conditionOf_eq_moderate (by norm_num) (by norm_num),
    conditionOf_eq_severe (by norm_num)⟩
  · intro q
    constructor
    · intro h
      rcases conditionOf_cases q with ⟨hq, _⟩ | ⟨_, _, hs⟩ | ⟨_, _, hs⟩ | ⟨_, hs⟩
      · exact hq
      all_goals rw [hs] at h; exact absurd h (by decide)
    · exact conditionOf_eq_normal
  · intro q
    constructor
    · intro h
      rcases conditionOf_cases q with ⟨_, hs⟩ | ⟨h1, h2, _⟩ | ⟨_, _, hs⟩ | ⟨_, hs⟩
      · rw [hs] at h; exact absurd h (by decide)
      · exact ⟨h1, h2⟩
      all_goals rw [hs] at h; exact absurd h (by decide)
    · intro ⟨h1, h2⟩
      exact conditionOf_eq_minor h1 h2
  · intro q
    constructor
    · intro h
      rcases conditionOf_cases q with ⟨_, hs⟩ | ⟨_, _, hs⟩ | ⟨h1, h2, _⟩ | ⟨_, hs⟩
      · rw [hs] at h; exact absurd h (by decide)
      · rw [hs] at h; exact absurd h (by decide)
      · exact ⟨h1, h2⟩
      · rw [hs] at h; exact absurd h (by decide)
    · intro ⟨h1, h2⟩
      exact conditionOf_eq_moderate h1 h2
  · intro q
    constructor
    · intro h
      rcases conditionOf_cases q with ⟨_, hs⟩ | ⟨_, _, hs⟩ | ⟨_, _, hs⟩ | ⟨h1, _⟩
      · rw [hs] at h; exact absurd h (by decide)
      · rw [hs] at h; exact absurd h (by decide)
      · rw [hs] at h; exact absurd h (by decide)
      · exact h1
    · exact conditionOf_eq_severe

/-! ### Alert-state commit versus delivery outcome -/

/-- The outcome of a `/data` request — post-state, response and number of
email attempts — does not depend on whether the email delivery succeeds. -/
theorem postData_deliveryOk_independent (st : ServerState) (r : Reading)
    (am gm : JSNum) (r1 r2 : ℚ) (now : ℤ) (o1 o2 : Bool) :
    (postData st r am gm r1 r2 now o1).state = (postData st r am gm r1 r2 now o2).state ∧
    (postData st r am gm r1 r2 now o1).response = (postData st r am gm r1 r2 now o2).response ∧
    (postData st r am gm r1 r2 now o1).emailsAttempted
      = (postData st r am gm r1 r2 now o2).emailsAttempted := by
  simp only [postData]
  split_ifs <;> exact ⟨rfl, rfl, rfl⟩

/-- Full description of a fired alert: the state commit happens regardless
of the delivery outcome, and a failure is recorded as exactly one logged
error. -/
theorem postData_fired_full (st : ServerState) (r : Reading) (am gm : JSNum)
    (r1 r2 : ℚ) (now : ℤ) (ok : Bool) (hacc : accepted r = true)
    (hsev : (computePredictions am gm r1 r2).condition = ("severe"))
    (hcool : now - st.lastAlertTime > ALERT_COOLDOWN_MS) :
    postData st r am gm r1 r2 now ok =
      { state := { latestData := some (r, computePredictions am gm r1 r2),
                   lastAlertTime := now },
        response := .ok (computePredictions am gm r1 r2),
        emailsAttempted := 1,
        emailErrors := if ok then 0 else 1 } := by
  have hv : (!truthy r.ax || !truthy r.ay || !truthy r.az) = false := by
    rw [validation_eq, hacc]; rfl
  simp only [postData, hv, Bool.false_eq_true, if_false, hsev, if_pos hcool, if_true]

/-- C5: when a severe condition is detected and the cooldown has elapsed,
the alert state (`lastAlertTime`) is committed independently of the email
delivery outcome — the post-state, the response and the single send attempt
are identical whether delivery succeeds or fails — and on failure exactly
one error is logged, with no retry (exactly one attempt) and the cooldown
window still starting at `now`. -/
theorem alertState_commit_before_send :
    ∀ (st : ServerState) (r : Reading) (am gm : JSNum) (r1 r2 : ℚ) (now : ℤ),
      (postData st r am gm r1 r2 now true).state
        = (postData st r am gm r1 r2 now false).state ∧
      (postData st r am gm r1 r2 now true).response
        = (postData st r am gm r1 r2 now false).response ∧
      (postData st r am gm r1 r2 now true).emailsAttempted
        = (postData st r am gm r1 r2 now false).emailsAttempted ∧
      (accepted r = true →
        (computePredictions am gm r1 r2).condition = ("severe") →
        now - st.lastAlertTime > ALERT_COOLDOWN_MS →
        (postData st r am gm r1 r2 now false).state.lastAlertTime = now ∧
        (postData st r am gm r1 r2 now false).emailsAttempted = 1 ∧
        (postData st r am gm r1 r2 now false).emailErrors = 1 ∧
        (postData st r am gm r1 r2 now true).emailErrors = 0) := by
  intro st r am gm r1 r2 now
  obtain ⟨h1, h2, h3⟩ := postData_deliveryOk_independent st r am gm r1 r2 now true false
  refine ⟨h1, h2, h3, fun hacc hsev hcool => ?_⟩
  rw [postData_fired_full st r am gm r1 r2 now false hacc hsev hcool,
    postData_fired_full st r am gm r1 r2 now true hacc hsev hcool]
  exact ⟨rfl, rfl, rfl, rfl⟩

/-! ### Latest value, late joiners, and the broadcast layer -/

/-- The latest stored message after a sequence of publishes is the last
published message (or the initial one for an empty sequence). -/
theorem foldl_publish_latest {α : Type} (ms : List α) :
    ∀ st : BroadcastState α, (List.foldl publish st ms).latest = ms.getLastD st.latest := by
  induction ms with
  | nil => intro st; rfl
  | cons m ms ih =>
    intro st
    rw [List.foldl_cons, List.getLastD_cons]
    exact ih (publish st m)

/-- C6: before the first successful ingest the `/latest` route answers the
explicit `"No data yet"` sentinel; after an accepted ingest it answers
exactly the most recent (reading, prediction) pair; and a WebSocket
subscriber connecting after any nonempty sequence of publishes is
immediately sent exactly the single latest published value and no earlier
one. -/
theorem latest_endpoint_and_lateJoin :
    getLatest initialServerState = .noData ("No data yet") ∧
    (∀ (st : ServerState) (r : Reading) (am gm : JSNum) (r1 r2 : ℚ) (now : ℤ)
        (ok : Bool), accepted r = true →
        getLatest (postData st r am gm r1 r2 now ok).state
          = .latestValue (r, computePredictions am gm r1 r2)) ∧
    (∀ (α : Type) (st : BroadcastState α) (ms : List α) (h : ms ≠ []),
        connectDeliver (List.foldl publish st ms) = [ms.getLast h]) := by
  refine ⟨rfl, ?_, ?_⟩
  · intro st r am gm r1 r2 now ok h
    unfold getLatest
    rw [postData_accepted_latest st r am gm r1 r2 now ok h]
  · intro α st ms h
    unfold connectDeliver
    rw [foldl_publish_latest ms st, List.getLastD_eq_getLast?,
      List.getLast?_eq_getLast_of_ne_nil h, Option.getD_some]

/-! ### The rolling history window -/

/-- Length of the buffer after one append: it grows by one until the
`MAX_POINTS = 50` cap and stays at 50 afterwards. -/
theorem appendHistory_length (prev : List ℚ) (v : ℚ) :
    (appendHistory prev v).length = min (prev.length + 1) 50 := by
  simp only [appendHistory, MAX_POINTS, List.length_drop, List.length_append,
    List.length_cons, List.length_nil]
  omega

/-- One append step, phrased with `List.rtake` (which is definitionally
the `slice(-50)` operation). -/
theorem appendHistory_eq_rtake (prev : List ℚ) (v : ℚ) :
    appendHistory prev v = (prev ++ [v]).rtake 50 := rfl

/-- Taking the last `n` elements of `xs`, appending `ys`, and again taking
the last `n` elements is the same as taking the last `n` elements of
`xs ++ ys`. -/
theorem rtake_append_rtake {α : Type} (xs ys : List α) (n : ℕ) :
    ((xs.rtake n) ++ ys).rtake n = (xs ++ ys).rtake n := by
  simp only [List.rtake_eq_reverse_take_reverse, List.reverse_append,
    List.reverse_reverse, List.take_append_eq_append_take, List.take_take,
    List.length_reverse]
  congr 2
  congr 1
  omega

/-- Folding appends over a buffer that respects the cap leaves exactly the
last 50 of the concatenation. -/
theorem foldl_appendHistory (vs : List ℚ) : ∀ acc : List ℚ, acc.length ≤ 50 →
    List.foldl appendHistory acc vs = (acc ++ vs).rtake 50 := by
  induction vs with
  | nil =>
    intro acc h
    simp only [List.foldl_nil, List.append_nil, List.rtake]
    rw [Nat.sub_eq_zero_of_le h, List.drop_zero]
  | cons v vs ih =>
    intro acc h
    rw [List.foldl_cons, ih (appendHistory acc v) (by rw [appendHistory_length]; omega),
      appendHistory_eq_rtake, rtake_append_rtake, List.append_assoc,
      List.singleton_append]

/-- C7: with capacity `MAX_POINTS = 50`, appending 60 values to an empty
per-channel history leaves exactly the last 50 appended values in arrival
order (the 10 oldest evicted), and every single append keeps the buffer
length at most 50. -/
theorem rollingHistory_window :
    (∀ vs : List ℚ, vs.length = 60 → List.foldl appendHistory [] vs = vs.drop 10) ∧
    (∀ (prev : List ℚ) (v : ℚ), (appendHistory prev v).length ≤ 50) ∧
    MAX_POINTS = 50 := by
  refine ⟨?_, ?_, rfl⟩
  · intro vs h
    rw [foldl_appendHistory vs [] (by simp), List.nil_append]
    simp only [List.rtake, h]
  · intro prev v
    rw [appendHistory_length]
    omega

/-- Witness for C7: the sixty concrete values `0..59` leave exactly the
last fifty, `10..59`, in arrival order. -/
theorem rollingHistory_window_witness :
    List.foldl appendHistory [] sixtyValues = sixtyValues.drop 10 :=
  rollingHistory_window.1 sixtyValues
    (by rw [sixtyValues, List.length_map, List.length_range])

/-! ### Timestamps at publish time -/

/-- C8 (amended): the HTTP ingest pipeline publishes the accepted reading
verbatim — its `timestamp` field, absent included, is whatever the client
sent, never replaced — while the serial pipeline of the second backend
variant ignores messages without a truthy `timestamp` and always overwrites
an accepted message's timestamp with the server clock. -/
theorem timestamp_passthrough_amended :
    (∀ (st : ServerState) (r : Reading) (am gm : JSNum) (r1 r2 : ℚ) (now : ℤ)
        (ok : Bool), accepted r = true →
        (postData st r am gm r1 r2 now ok).state.latestData
          = some (r, computePredictions am gm r1 r2)) ∧
    (∀ (latest j : SerialMsg) (now : ℤ), tsTruthy j.timestamp = false →
        handleSerialData latest j now = latest) ∧
    (∀ (latest j : SerialMsg) (now : ℤ), j.hasSensors = true →
        tsTruthy j.timestamp = true →
        (handleSerialData latest j now).timestamp = some now) := by
  refine ⟨fun st r am gm r1 r2 now ok h =>
    postData_accepted_latest st r am gm r1 r2 now ok h, ?_, ?_⟩
  · intro latest j now h
    simp [handleSerialData, h]
  · intro latest j now h1 h2
    simp [handleSerialData, h1, h2]

section ConcreteWitnesses

attribute [local semireducible] Rat.add Rat.mul Rat.inv Rat.sub Rat.ofScientific

/-- C8 (counterexample to the claim as stated): the severe reading posted
without a `timestamp` field is accepted and published, and the published
latest value carries no timestamp at all — the `/data` pipeline of the
ingest server never assigns a server-side timestamp. -/
theorem timestamp_not_assigned_counterexample :
    severeReading.timestamp = none ∧
    accepted severeReading = true ∧
    (postData initialServerState severeReading (num 7) (num 0) 0 0 100000
        true).state.latestData
      = some (severeReading, computePredictions (num 7) (num 0) 0 0) ∧
    Option.map (fun p => p.1.timestamp)
        (postData initialServerState severeReading (num 7) (num 0) 0 0 100000
          true).state.latestData
      = some none := by
  decide

/-- Witness for the amended C8 at concrete inputs: the published latest
value is the posted reading verbatim, a serial message without a timestamp
is ignored, and an accepted serial message gets the server clock. -/
theorem timestamp_passthrough_amended_witness :
    (postData initialServerState severeReading (num 7) (num 0) 0 0 100000
        true).state.latestData
      = some (severeReading, computePredictions (num 7) (num 0) 0 0) ∧
    handleSerialData { hasSensors := true, timestamp := some 5, status := ("normal") }
        { hasSensors := true, timestamp := none, status := ("critical") } 777
      = { hasSensors := true, timestamp := some 5, status := ("normal") } ∧
    (handleSerialData { hasSensors := true, timestamp := some 5, status := ("normal") }
        { hasSensors := true, timestamp := some 3, status := ("critical") } 777).timestamp
      = some 777 :=
  ⟨timestamp_passthrough_amended.1 initialServerState severeReading (num 7) (num 0)
      0 0 100000 true (by decide),
    timestamp_passthrough_amended.2.1 _ _ 777 (by decide),
    timestamp_passthrough_amended.2.2 _ _ 777 (by decide) (by decide)⟩

/-- Witness for C3 at a concrete input: magnitudes 7 and 0 with both random
draws equal to one half give all three outputs inside the unit interval. -/
theorem classify_outputs_bounded_witness :
    inUnit (computePredictions (num 7) (num 0) (1/2) (1/2)).degradation_score ∧
    inUnit (computePredictions (num 7) (num 0) (1/2) (1/2)).forecast_30d ∧
    inUnit (computePredictions (num 7) (num 0) (1/2) (1/2)).confidence :=
  have h := classify_outputs_bounded.2 7 0 (1/2) (1/2) (by decide) (by decide)
    (by decide) (by decide) (by decide) (by decide)
  ⟨h.1, h.2.1, h.2.2.1⟩

/-- Witness for C5 at a concrete input: the severe reading at time 70000
from the initial state commits `lastAlertTime = 70000` with exactly one
send attempt, one logged error on failed delivery and none on success. -/
theorem alertState_commit_before_send_witness :
    (postData initialServerState severeReading (num 7) (num 0) 0 0 70000
        false).state.lastAlertTime = 70000 ∧
    (postData initialServerState severeReading (num 7) (num 0) 0 0 70000
        false).emailsAttempted = 1 ∧
    (postData initialServerState severeReading (num 7) (num 0) 0 0 70000
        false).emailErrors = 1 ∧
    (postData initialServerState severeReading (num 7) (num 0) 0 0 70000
        true).emailErrors = 0 :=
  (alertState_commit_before_send initialServerState severeReading (num 7) (num 0)
      0 0 70000).2.2.2 (by decide) (by decide) (by decide)

/-- Witness for C6 at concrete inputs: after ingesting the severe reading
the `/latest` route answers exactly that (reading, prediction) pair, and a
subscriber connecting after five publishes is immediately sent exactly the
fifth value. -/
theorem latest_endpoint_and_lateJoin_witness :
    getLatest (postData initialServerState severeReading (num 7) (num 0) 0 0
        100000 true).state
      = .latestValue (severeReading, computePredictions (num 7) (num 0) 0 0) ∧
    connectDeliver (List.foldl publish
        ({ latest := 0, clients := [] } : BroadcastState ℕ) [1, 2, 3, 4, 5])
      = [5] :=
  ⟨latest_endpoint_and_lateJoin.2.1 initialServerState severeReading (num 7)
      (num 0) 0 0 100000 true (by decide),
    (latest_endpoint_and_lateJoin.2.2 ℕ { latest := 0, clients := [] }
      [1, 2, 3, 4, 5] (by decide)).trans (by decide)⟩

/-- Witness for C4 at a concrete input: the tier characterisation applied at
the degradation value 0.1 yields `"normal"`. -/
theorem condition_thresholds_witness :
    conditionOf (num 0.1) = ("normal") :=
  (condition_thresholds.1 0.1).mpr (by norm_num)

end ConcreteWitnesses

end SetuAI
